import Mathlib

/-!
Verification of the MediaMTX sync service (`mediamtx_sync/sync_service.py`)
of the rstp-cctv-odoo17 module.

The Python service is shallowly embedded: YAML documents become the inductive
type `YVal` (Python dicts are association lists with Python's `dict.__setitem__`
semantics, `dictInsert`), camera records fetched over XML-RPC become the
`Camera` structure with `Option` fields for keys that may be absent or falsy,
and the stateful sync loop becomes explicit state passing over `FileState`.
Each definition is translated from the corresponding source function and keeps
its name.
-/

/-- YAML-representable values as produced by the sync service: strings,
integers, booleans, sequences and (insertion-ordered) mappings.  This is the
value universe of the Python dicts built by `generate_mediamtx_config`. -/
inductive YVal where
  | str (s : String)
  | nat (n : Nat)
  | bool (b : Bool)
  | list (xs : List YVal)
  | map (kvs : List (String × YVal))

/-- Python `d[k] = v` on an insertion-ordered dict represented as an
association list: if the key is present its value is replaced in place
(position kept), otherwise the pair is appended at the end. -/
def dictInsert : List (String × YVal) → String → YVal → List (String × YVal)
  | [], k, v => [(k, v)]
  | p :: ps, k, v => if p.1 = k then (k, v) :: ps else p :: dictInsert ps k v

/-- Lookup of a key in an association list (Python `d.get(k)` /
`d[k]` on the dicts built by the renderer). -/
def lookupKV : List (String × YVal) → String → Option YVal
  | [], _ => none
  | (k, v) :: rest, key => if k = key then some v else lookupKV rest key

/-- Python truthiness of an optional string field of a camera record:
a missing key (or Odoo's `False` placeholder for an unset Char field) and the
empty string are falsy, any other string is truthy.  This is the test
`if not camera_name or not rtsp_url` in `generate_mediamtx_config`. -/
def truthyStr : Option String → Bool
  | none => false
  | some s => if s = "" then false else true

/-- A camera record as returned by `cctv.camera.read` over XML-RPC with the
field list used in `get_cameras_from_odoo`.  `none` models an absent key or an
unset (falsy) Odoo field. -/
structure Camera where
  id : Option Nat
  mediamtx_path : Option String
  rtsp_url : Option String
  transcoding_enabled : Option Bool
  target_bitrate : Option Nat

/-- Embedding of the Python expression `int(bitrate * 1.5)` from the ffmpeg
command template.  For the integer bitrates the module handles (the model
constrains `target_bitrate` to 100..10000, far below 2^52) the float product
`bitrate * 1.5` is exact, so `int` truncation equals the rational floor
`3 * bitrate / 2` in integer arithmetic. -/
def transcodeMaxrate (bitrate : Nat) : Nat := 3 * bitrate / 2

/-- Embedding of the Python expression `int(bitrate * 2)` (exact, no
rounding). -/
def transcodeBufsize (bitrate : Nat) : Nat := 2 * bitrate

/-- The ffmpeg `runOnDemand` command template from `generate_mediamtx_config`,
with the raw-route name and the bitrate-derived numbers interpolated. -/
def ffmpegCommand (raw_path : String) (bitrate : Nat) : String :=
  "ffmpeg -rtsp_transport tcp -i rtsp://localhost:8554/" ++ raw_path ++
  " -map 0:v:0 -c:v libx264 -preset ultrafast -tune zerolatency" ++
  " -profile:v baseline -level 3.1 -pix_fmt yuv420p -b:v " ++
  Nat.repr bitrate ++ "k -maxrate " ++ Nat.repr (transcodeMaxrate bitrate) ++
  "k -bufsize " ++ Nat.repr (transcodeBufsize bitrate) ++
  "k -g 30 -keyint_min 30 -sc_threshold 0 -an -max_muxing_queue_size 1024" ++
  " -f rtsp rtsp://localhost:8554/$MTX_PATH"

/-- The raw ingest route emitted for every valid camera
(`config['paths'][raw_path] = ...`). -/
def rawRoute (rtsp_url : String) : YVal :=
  .map [("source", .str rtsp_url),
        ("rtspTransport", .str "tcp"),
        ("sourceOnDemand", .bool true),
        ("sourceOnDemandStartTimeout", .str "10s"),
        ("sourceOnDemandCloseAfter", .str "10s")]

/-- The transcode route emitted when transcoding is enabled. -/
def transcodeRoute (raw_path : String) (bitrate : Nat) : YVal :=
  .map [("runOnDemand", .str (ffmpegCommand raw_path bitrate)),
        ("runOnDemandRestart", .bool true),
        ("runOnDemandStartTimeout", .str "15s"),
        ("runOnDemandCloseAfter", .str "10s")]

/-- The passthrough route emitted when transcoding is disabled. -/
def passthroughRoute (raw_path : String) : YVal :=
  .map [("source", .str ("rtsp://localhost:8554/" ++ raw_path)),
        ("sourceOnDemand", .bool true)]

/-- The fixed catch-all entry `config['paths']['all_others']`. -/
def catchAllRoute : YVal := .map [("sourceOnDemand", .bool false)]

/-- The fixed base settings block of `generate_mediamtx_config`, in source
order, excluding the trailing `paths` mapping. -/
def baseConfig : List (String × YVal) :=
  [("logLevel", .str "info"),
   ("logDestinations", .list [.str "stdout"]),
   ("api", .bool true),
   ("apiAddress", .str ":9997"),
   ("rtspAddress", .str ":8554"),
   ("rtspsAddress", .str ":8322"),
   ("rtmpAddress", .str ":1935"),
   ("rtmpEncryption", .str "no"),
   ("hlsAddress", .str ":8888"),
   ("hlsAlwaysRemux", .bool false),
   ("hlsVariant", .str "lowLatency"),
   ("hlsSegmentCount", .nat 7),
   ("hlsSegmentDuration", .str "1s"),
   ("hlsPartDuration", .str "200ms"),
   ("webrtcAddress", .str ":8889"),
   ("webrtcAllowOrigins", .list [.str "*"]),
   ("webrtcLocalUDPAddress", .str ":8189"),
   ("webrtcLocalTCPAddress", .str ":8189"),
   ("webrtcIPsFromInterfaces", .bool true),
   ("webrtcIPsFromInterfacesList", .list []),
   ("webrtcICEServers2", .list [])]

/-- The skip test of the per-camera loop body: a record is rendered only when
both `mediamtx_path` and `rtsp_url` are truthy
(`if not camera_name or not rtsp_url: continue`). -/
def validCamera (camera : Camera) : Bool :=
  truthyStr camera.mediamtx_path && truthyStr camera.rtsp_url

/-- The routing key a record contributes when rendered. -/
def keyOf (camera : Camera) : String := camera.mediamtx_path.getD ""

/-- One iteration of the `for camera in cameras` loop of
`generate_mediamtx_config`, acting on the `paths` dict accumulator:
skip invalid records, otherwise insert the `<key>-raw` ingest route and then
either the transcode route (default when `transcoding_enabled` is absent:
`camera.get('transcoding_enabled', True)`) or the passthrough route.
The bitrate default is `camera.get('target_bitrate', 1000)`. -/
def addCamera (paths : List (String × YVal)) (camera : Camera) :
    List (String × YVal) :=
  if validCamera camera then
    let camera_name := camera.mediamtx_path.getD ""
    let rtsp_url := camera.rtsp_url.getD ""
    let transcoding := camera.transcoding_enabled.getD true
    let bitrate := camera.target_bitrate.getD 1000
    let raw_path := camera_name ++ "-raw"
    let paths1 := dictInsert paths raw_path (rawRoute rtsp_url)
    if transcoding then
      dictInsert paths1 camera_name (transcodeRoute raw_path bitrate)
    else
      dictInsert paths1 camera_name (passthroughRoute raw_path)
  else paths

/-- The final value of `config['paths']`: the per-camera loop folded over the
camera list starting from the empty dict, then the fixed catch-all entry. -/
def renderPaths (cameras : List Camera) : List (String × YVal) :=
  dictInsert (cameras.foldl addCamera []) "all_others" catchAllRoute

/-- Embedding of `generate_mediamtx_config`: the base settings block with the
populated `paths` mapping in its source position (last key). -/
def generate_mediamtx_config (cameras : List Camera) : YVal :=
  .map (baseConfig ++ [("paths", .map (renderPaths cameras))])

/-- The top-level key-value pairs of a configuration document. -/
def topKVs : YVal → List (String × YVal)
  | .map kvs => kvs
  | _ => []

/-- The `paths` mapping of a configuration document. -/
def routesOf (config : YVal) : List (String × YVal) :=
  match lookupKV (topKVs config) "paths" with
  | some (.map ps) => ps
  | _ => []

/-- Key-ordered insertion sort on already-serialized map entries, modelling
the `sort_keys=True` canonicalization performed by `yaml.dump` inside
`calculate_config_hash`. -/
def sortPairs (ps : List (String × String)) : List (String × String) :=
  ps.insertionSort (fun p q => p.1 ≤ q.1)

/-- Rendering of one sorted map entry inside the canonical serialization. -/
def joinPair (p : String × String) : String :=
  "(entry " ++ p.1 ++ " " ++ p.2 ++ ")"

mutual

/-- Canonical sorted-key serialization of a document.  This embeds the
composition `md5(yaml.dump(config, sort_keys=True))` of
`calculate_config_hash`: the exact YAML surface syntax and the MD5 step are
collapsed into one canonical text, which is faithful for the direction the
service relies on — equal canonical texts give equal digests. -/
def canonDump : YVal → String
  | .str s => "(str " ++ s ++ ")"
  | .nat n => "(nat " ++ Nat.repr n ++ ")"
  | .bool b => "(bool " ++ (if b then "true" else "false") ++ ")"
  | .list xs => "(list " ++ String.intercalate " " (dumpElems xs) ++ ")"
  | .map kvs =>
      "(map " ++
        String.intercalate " " ((sortPairs (dumpPairs kvs)).map joinPair) ++ ")"

/-- Serialization of the elements of a YAML sequence, in order. -/
def dumpElems : List YVal → List String
  | [] => []
  | x :: xs => canonDump x :: dumpElems xs

/-- Serialization of the values of a YAML mapping, keeping keys. -/
def dumpPairs : List (String × YVal) → List (String × String)
  | [] => []
  | (k, v) :: ps => (k, canonDump v) :: dumpPairs ps

end

/-- Embedding of `calculate_config_hash`: the digest of the canonical
sorted-key serialization of the document. -/
def calculate_config_hash (config : YVal) : String := canonDump config

/-- Contents of the file at `MEDIAMTX_CONFIG_PATH` as seen by `sync_once`:
the file may be missing (`FileNotFoundError` on open), may hold text that
`yaml.safe_load` raises on, or may hold a serialization of document `d`.
Storing the parsed document embeds the serialize-then-reparse round trip of
the YAML library (its documented contract for the documents this service
writes). -/
inductive FileState where
  | missing
  | unparsable
  | parsed (d : YVal)

/-- Embedding of `write_config`: create the parent directories and dump the
document to the path.  Absent injected I/O faults the write succeeds and the
function returns `True`; the new file contents replace whatever was there. -/
def write_config (config : YVal) (_st : FileState) : FileState × Bool :=
  (.parsed config, true)

/-- Result of one `sync_once(uid)` call: the file state afterwards, whether
`write_config` was invoked, whether `reload_mediamtx` was invoked, and the
Python return value (`True`, `False`, or `None`). -/
structure SyncResult where
  state : FileState
  wrote : Bool
  reloaded : Bool
  ret : Option Bool

/-- Embedding of `sync_once`, with the fetched camera list passed in place of
the XML-RPC call.  The inner `try` around the file read catches only
`FileNotFoundError` (the `.missing` case, `old_hash = None`); a parse error
from `yaml.safe_load` (the `.unparsable` case) propagates to the outer
`except Exception`, which logs and returns `False` without writing.  When the
old hash is absent or differs from the new one, the config is written and the
reload is triggered and the call returns `True`; otherwise nothing is written
and the call returns `False`. -/
def sync_once (cameras : List Camera) (st : FileState) : SyncResult :=
  let new_config := generate_mediamtx_config cameras
  let new_hash := calculate_config_hash new_config
  match st with
  | .missing =>
      { state := (write_config new_config .missing).1, wrote := true,
        reloaded := true, ret := some true }
  | .unparsable =>
      { state := .unparsable, wrote := false, reloaded := false,
        ret := some false }
  | .parsed old =>
      let old_hash := calculate_config_hash old
      if new_hash ≠ old_hash then
        { state := (write_config new_config (.parsed old)).1, wrote := true,
          reloaded := true, ret := some true }
      else
        { state := .parsed old, wrote := false, reloaded := false,
          ret := some false }

/-- Outcome of one XML-RPC call in `get_cameras_from_odoo`: either the call
returns a value or it raises (connection refused, DNS failure, timeout,
protocol fault). -/
inductive RpcResult (α : Type) where
  | ok (value : α)
  | raised

/-- Embedding of `get_cameras_from_odoo`, parameterized by the outcomes of
the two XML-RPC calls (the `search` for active camera ids and the `read` of
their fields).  The surrounding `try/except Exception` turns any raise into
`return []`; an empty id list also returns `[]`
(`if not camera_ids: return []`). -/
def get_cameras_from_odoo (search : RpcResult (List Nat))
    (readCall : RpcResult (List Camera)) : List Camera :=
  match search with
  | .raised => []
  | .ok camera_ids =>
      if camera_ids.isEmpty then []
      else
        match readCall with
        | .raised => []
        | .ok cameras => cameras

/-- Outcome of the startup phase of `main`: either authentication succeeded
and the service proceeds into the sync loop with a uid, or `main` returns and
the interpreter exits. -/
inductive StartupOutcome where
  | proceed (uid : Nat)
  | exitNormal

/-- The startup authentication retry loop of `main`, with the outcome of each
`authenticate_odoo()` attempt given by `auth` (attempts are numbered from 0).
The loop makes at most `fuel` attempts (`max_auth_retries = 10` from
`mainStartup`); when an attempt yields a uid it breaks out, and when the
budget is exhausted `main` returns (`return` after the final log line). -/
def authLoop (auth : Nat → Option Nat) : Nat → Nat → StartupOutcome
  | _, 0 => .exitNormal
  | attempt, fuel + 1 =>
      match auth attempt with
      | some uid => .proceed uid
      | none => authLoop auth (attempt + 1) fuel

/-- Embedding of the startup phase of `main`: `max_auth_retries = 10`. -/
def mainStartup (auth : Nat → Option Nat) : StartupOutcome :=
  authLoop auth 0 10

/-- The process exit status produced by the startup phase: when `main`
returns after exhausting its retries, the script falls off the end of the
`if __name__ == '__main__'` block and the interpreter exits with status 0
(no `sys.exit` call exists on this path); when authentication succeeds the
process continues into the polling loop and does not exit at startup. -/
def processExitCode (auth : Nat → Option Nat) : Option Nat :=
  match mainStartup auth with
  | .exitNormal => some 0
  | .proceed _ => none

/-- File contents observable at the target path over the course of one
`write_config` call, in order: the previous contents, then — because
`open(path, 'w')` truncates the file in place before `yaml.dump` streams the
serialized text into it — every prefix of the new contents beginning with the
empty file, ending with the complete new contents. -/
def observableDuringWrite (prev next : String) : List String :=
  prev :: (List.range (next.length + 1)).map (fun i => String.mk (next.data.take i))

/-- Semantic equality of two YAML documents: equal scalars, elementwise
equivalent sequences, and mappings carrying the same key set (keys unique, as
Python dicts guarantee) with equivalent values, irrespective of the insertion
order of the keys.  The `map` constructor first rewrites values pointwise and
then permutes the entries. -/
inductive YEquiv : YVal → YVal → Prop where
  | str (s : String) : YEquiv (.str s) (.str s)
  | nat (n : Nat) : YEquiv (.nat n) (.nat n)
  | bool (b : Bool) : YEquiv (.bool b) (.bool b)
  | list {xs ys : List YVal} (hlen : xs.length = ys.length)
      (hval : ∀ (i : Nat) (hx : i < xs.length) (hy : i < ys.length),
        YEquiv (xs.get ⟨i, hx⟩) (ys.get ⟨i, hy⟩)) :
      YEquiv (.list xs) (.list ys)
  | map {kvs kvs0 kvs' : List (String × YVal)}
      (hlen : kvs.length = kvs0.length)
      (hkey : ∀ (i : Nat) (h : i < kvs.length) (h' : i < kvs0.length),
        (kvs.get ⟨i, h⟩).1 = (kvs0.get ⟨i, h'⟩).1)
      (hval : ∀ (i : Nat) (h : i < kvs.length) (h' : i < kvs0.length),
        YEquiv (kvs.get ⟨i, h⟩).2 (kvs0.get ⟨i, h'⟩).2)
      (hperm : kvs0.Perm kvs')
      (hnd : (kvs.map Prod.fst).Nodup) :
      YEquiv (.map kvs) (.map kvs')

/-- Inserting a key and then looking it up yields the inserted value. -/
theorem lookupKV_dictInsert_self (ps : List (String × YVal)) (k : String) (v : YVal) :
    lookupKV (dictInsert ps k v) k = some v := by
  induction ps with
  | nil => simp [dictInsert, lookupKV]
  | cons p ps ih =>
      by_cases h : p.1 = k
      · simp [dictInsert, h, lookupKV]
      · simp [dictInsert, h, lookupKV, ih]

/-- Inserting one key leaves lookups of other keys unchanged. -/
theorem lookupKV_dictInsert_ne (ps : List (String × YVal)) (k : String) (v : YVal)
    (k' : String) (h : k' ≠ k) :
    lookupKV (dictInsert ps k v) k' = lookupKV ps k' := by
  induction ps with
  | nil => simp [dictInsert, lookupKV, Ne.symm h]
  | cons p ps ih =>
      by_cases hp : p.1 = k
      · simp [dictInsert, hp, lookupKV, Ne.symm h]
      · simp [dictInsert, hp, lookupKV, ih]

/-- Every key of `dictInsert ps k v` is either `k` or a key of `ps`. -/
theorem mem_keys_dictInsert {ps : List (String × YVal)} {k : String} {v : YVal}
    {n : String} (h : n ∈ (dictInsert ps k v).map Prod.fst) :
    n = k ∨ n ∈ ps.map Prod.fst := by
  revert h
  induction ps with
  | nil =>
      intro h
      simp [dictInsert] at h
      exact .inl h
  | cons p ps ih =>
      intro h
      by_cases hp : p.1 = k
      · simp only [dictInsert, hp, if_pos, List.map_cons, List.mem_cons] at h
        rcases h with h | h
        · exact .inl h
        · exact .inr (by simp only [List.map_cons, List.mem_cons]; exact .inr h)
      · simp only [dictInsert, if_neg hp, List.map_cons, List.mem_cons] at h
        rcases h with h | h
        · exact .inr (by simp only [List.map_cons, List.mem_cons]; exact .inl h)
        · rcases ih h with h1 | h1
          · exact .inl h1
          · exact .inr (by simp only [List.map_cons, List.mem_cons]; exact .inr h1)

/-- The sequence serializer is a map of the value serializer. -/
theorem dumpElems_eq_map (xs : List YVal) : dumpElems xs = xs.map canonDump := by
  induction xs with
  | nil => simp [dumpElems]
  | cons x xs ih => simp [dumpElems, ih]

/-- The mapping serializer keeps keys and serializes values. -/
theorem dumpPairs_eq_map (kvs : List (String × YVal)) :
    dumpPairs kvs = kvs.map (fun p => (p.1, canonDump p.2)) := by
  induction kvs with
  | nil => simp [dumpPairs]
  | cons p ps ih => cases p; simp [dumpPairs, ih]

instance : IsTrans (String × String) (fun p q => p.1 ≤ q.1) :=
  ⟨fun _ _ _ h1 h2 => le_trans h1 h2⟩

instance : IsTotal (String × String) (fun p q => p.1 ≤ q.1) :=
  ⟨fun p q => le_total p.1 q.1⟩

instance : IsAntisymm (String × String) (fun p q => p.1 < q.1) :=
  ⟨fun _ _ h1 h2 => absurd h2 (lt_asymm h1)⟩

/-- A key-sorted list of entries with pairwise distinct keys is strictly
sorted by key. -/
theorem sorted_lt_of_nodup_keys {l : List (String × String)}
    (hs : List.Sorted (fun p q : String × String => p.1 ≤ q.1) l)
    (hnd : (l.map Prod.fst).Nodup) :
    List.Sorted (fun p q : String × String => p.1 < q.1) l := by
  have hne : l.Pairwise (fun p q : String × String => p.1 ≠ q.1) :=
    List.pairwise_map.mp hnd
  exact (hs.and hne).imp fun h => lt_of_le_of_ne h.1 h.2

/-- Sorting by key is invariant under permutation of the entries when the
keys are pairwise distinct (as they are for any list of entries obtained from
a Python dict). -/
theorem sortPairs_perm_eq {l1 l2 : List (String × String)} (hp : l1.Perm l2)
    (hnd : (l1.map Prod.fst).Nodup) : sortPairs l1 = sortPairs l2 := by
  have h1 : (sortPairs l1).Perm l1 := List.perm_insertionSort _ l1
  have h2 : (sortPairs l2).Perm l2 := List.perm_insertionSort _ l2
  have hq : (sortPairs l1).Perm (sortPairs l2) := h1.trans (hp.trans h2.symm)
  have hs1 := List.sorted_insertionSort (fun p q : String × String => p.1 ≤ q.1) l1
  have hs2 := List.sorted_insertionSort (fun p q : String × String => p.1 ≤ q.1) l2
  have hnd1 : ((sortPairs l1).map Prod.fst).Nodup :=
    ((h1.map Prod.fst).nodup_iff).mpr hnd
  have hnd2 : ((sortPairs l2).map Prod.fst).Nodup :=
    ((h2.map Prod.fst).nodup_iff).mpr (((hp.map Prod.fst).nodup_iff).mp hnd)
  exact List.eq_of_perm_of_sorted hq (sorted_lt_of_nodup_keys hs1 hnd1)
    (sorted_lt_of_nodup_keys hs2 hnd2)

/-- Pointwise equal keys and pointwise equal value serializations give equal
serialized entry lists. -/
theorem dumpPairs_ext {kvs kvs0 : List (String × YVal)}
    (hlen : kvs.length = kvs0.length)
    (hkey : ∀ (i : Nat) (h : i < kvs.length) (h' : i < kvs0.length),
      (kvs.get ⟨i, h⟩).1 = (kvs0.get ⟨i, h'⟩).1)
    (hval : ∀ (i : Nat) (h : i < kvs.length) (h' : i < kvs0.length),
      canonDump (kvs.get ⟨i, h⟩).2 = canonDump (kvs0.get ⟨i, h'⟩).2) :
    dumpPairs kvs = dumpPairs kvs0 := by
  rw [dumpPairs_eq_map, dumpPairs_eq_map]
  apply List.ext_get (by simpa using hlen)
  intro i h1 h2
  simp only [List.get_eq_getElem, List.getElem_map]
  have hk := hkey i (by simpa using h1) (by simpa using h2)
  have hv := hval i (by simpa using h1) (by simpa using h2)
  simp only [List.get_eq_getElem] at hk hv
  exact congrArg₂ Prod.mk hk hv

/-- Pointwise equal keys give equal key lists. -/
theorem map_fst_ext {kvs kvs0 : List (String × YVal)}
    (hlen : kvs.length = kvs0.length)
    (hkey : ∀ (i : Nat) (h : i < kvs.length) (h' : i < kvs0.length),
      (kvs.get ⟨i, h⟩).1 = (kvs0.get ⟨i, h'⟩).1) :
    kvs.map Prod.fst = kvs0.map Prod.fst := by
  apply List.ext_get (by simpa using hlen)
  intro i h1 h2
  simp only [List.get_eq_getElem, List.getElem_map]
  have hk := hkey i (by simpa using h1) (by simpa using h2)
  simpa using hk

/-- Pointwise equal element serializations give equal serialized sequences. -/
theorem dumpElems_ext {xs ys : List YVal}
    (hlen : xs.length = ys.length)
    (hval : ∀ (i : Nat) (hx : i < xs.length) (hy : i < ys.length),
      canonDump (xs.get ⟨i, hx⟩) = canonDump (ys.get ⟨i, hy⟩)) :
    dumpElems xs = dumpElems ys := by
  rw [dumpElems_eq_map, dumpElems_eq_map]
  apply List.ext_get (by simpa using hlen)
  intro i h1 h2
  simp only [List.get_eq_getElem, List.getElem_map]
  have hv := hval i (by simpa using h1) (by simpa using h2)
  simpa using hv

/-- Semantically equal documents have equal canonical serializations. -/
theorem canonDump_eq_of_yequiv : ∀ {a b : YVal}, YEquiv a b → canonDump a = canonDump b := by
  intro a b h
  induction h with
  | str s => rfl
  | nat n => rfl
  | bool b => rfl
  | @list xs ys hlen hval ih =>
      simp only [canonDump]
      rw [dumpElems_ext hlen ih]
  | @map kvs kvs0 kvs' hlen hkey hval hperm hnd ih =>
      simp only [canonDump]
      have h1 : dumpPairs kvs = dumpPairs kvs0 := dumpPairs_ext hlen hkey ih
      have h2 : (dumpPairs kvs0).Perm (dumpPairs kvs') := by
        rw [dumpPairs_eq_map, dumpPairs_eq_map]
        exact hperm.map _
      have hk : (dumpPairs kvs0).map Prod.fst = kvs0.map Prod.fst := by
        rw [dumpPairs_eq_map]
        simp [List.map_map, Function.comp]
      have hnd0 : ((dumpPairs kvs0).map Prod.fst).Nodup := by
        rw [hk, ← map_fst_ext hlen hkey]
        exact hnd
      rw [h1, sortPairs_perm_eq h2 hnd0]

/-- The `paths` mapping of a rendered configuration is `renderPaths`. -/
theorem routesOf_generate (cameras : List Camera) :
    routesOf (generate_mediamtx_config cameras) = renderPaths cameras := rfl

/-- A record failing the skip test contributes nothing to the paths dict. -/
theorem addCamera_invalid {camera : Camera} (h : validCamera camera = false)
    (paths : List (String × YVal)) : addCamera paths camera = paths := by
  simp [addCamera, h]

/-- Folding the per-camera loop over a list equals folding it over the list
with the invalid records dropped. -/
theorem foldl_addCamera_filter (cameras : List Camera) :
    ∀ acc, cameras.foldl addCamera acc = (cameras.filter validCamera).foldl addCamera acc := by
  induction cameras with
  | nil => intro acc; rfl
  | cons c cs ih =>
      intro acc
      cases hv : validCamera c with
      | false => simp [List.filter_cons, hv, addCamera_invalid hv, ih]
      | true => simp [List.filter_cons, hv, ih]

/-- Every key added by one loop iteration is the record's routing key or its
raw variant, and only valid records add keys. -/
theorem names_addCamera {acc : List (String × YVal)} {c : Camera} {n : String}
    (h : n ∈ (addCamera acc c).map Prod.fst) :
    n ∈ acc.map Prod.fst ∨
      (validCamera c = true ∧ (n = keyOf c ∨ n = keyOf c ++ "-raw")) := by
  by_cases hv : validCamera c
  · rw [addCamera, if_pos hv] at h
    rcases htr : c.transcoding_enabled.getD true with _ | _ <;> rw [htr] at h
    · simp only [Bool.false_eq_true, if_false] at h
      rcases mem_keys_dictInsert h with h1 | h1
      · exact .inr ⟨hv, .inl h1⟩
      · rcases mem_keys_dictInsert h1 with h2 | h2
        · exact .inr ⟨hv, .inr h2⟩
        · exact .inl h2
    · simp only [if_true] at h
      rcases mem_keys_dictInsert h with h1 | h1
      · exact .inr ⟨hv, .inl h1⟩
      · rcases mem_keys_dictInsert h1 with h2 | h2
        · exact .inr ⟨hv, .inr h2⟩
        · exact .inl h2
  · rw [addCamera_invalid (by simpa using hv)] at h
    exact .inl h

/-- Every key of the folded paths dict comes from the accumulator or from a
valid record of the list. -/
theorem names_foldl (cameras : List Camera) :
    ∀ (acc : List (String × YVal)) (n : String),
      n ∈ ((cameras.foldl addCamera acc).map Prod.fst) →
      n ∈ acc.map Prod.fst ∨
        ∃ c, c ∈ cameras ∧ validCamera c = true ∧
          (n = keyOf c ∨ n = keyOf c ++ "-raw") := by
  induction cameras with
  | nil => intro acc n h; exact .inl h
  | cons c cs ih =>
      intro acc n h
      rcases ih (addCamera acc c) n h with h1 | h1
      · rcases names_addCamera h1 with h2 | h2
        · exact .inl h2
        · exact .inr ⟨c, List.mem_cons_self c cs, h2.1, h2.2⟩
      · rcases h1 with ⟨c', hc', hvc', hn'⟩
        exact .inr ⟨c', List.mem_cons_of_mem c hc', hvc', hn'⟩

/-- A sync attempt that wrote leaves the freshly rendered configuration
persisted. -/
theorem sync_once_wrote_state {cameras : List Camera} {st : FileState}
    (h : (sync_once cameras st).wrote = true) :
    (sync_once cameras st).state = .parsed (generate_mediamtx_config cameras) := by
  cases st with
  | missing => rfl
  | unparsable => simp [sync_once] at h
  | parsed old =>
      by_cases hh : calculate_config_hash (generate_mediamtx_config cameras)
          = calculate_config_hash old
      · simp [sync_once, hh] at h
      · simp [sync_once, hh, write_config]

/-- A sync attempt whose prior persisted document is exactly the rendered one
detects no change and does nothing. -/
theorem sync_once_noop (cameras : List Camera) :
    sync_once cameras (.parsed (generate_mediamtx_config cameras)) =
      { state := .parsed (generate_mediamtx_config cameras), wrote := false,
        reloaded := false, ret := some false } := by
  simp [sync_once]

/-- The truncated integer `int(bitrate * 1.5)` is the rational floor of
`1.5 * bitrate`. -/
theorem transcodeMaxrate_eq_floor (b : Nat) :
    transcodeMaxrate b = Nat.floor ((1.5 : ℚ) * b) := by
  have h : (1.5 : ℚ) * b = ((3 * b : Nat) : ℚ) / ((2 : Nat) : ℚ) := by
    push_cast
    ring
  rw [h, Nat.floor_div_nat, Nat.floor_natCast]
  rfl

/-- Appending the raw suffix changes the string. -/
theorem append_raw_ne (name : String) : name ++ "-raw" ≠ name := by
  intro h
  have hlen := congrArg String.length h
  rw [String.length_append] at hlen
  have h4 : ("-raw" : String).length = 4 := rfl
  omega

/-- Looking up the routing key of a single valid rendered record yields its
transcode route when transcoding is enabled (or defaulted) and its
passthrough route otherwise. -/
theorem lookup_render_single (i : Option Nat) (name url : String)
    (tr : Option Bool) (tb : Option Nat)
    (hn : name ≠ "") (hu : url ≠ "") (ha : name ≠ "all_others") :
    lookupKV (renderPaths [⟨i, some name, some url, tr, tb⟩]) name =
      some (if tr.getD true then transcodeRoute (name ++ "-raw") (tb.getD 1000)
            else passthroughRoute (name ++ "-raw")) := by
  have hval : validCamera ⟨i, some name, some url, tr, tb⟩ = true := by
    simp [validCamera, truthyStr, hn, hu]
  have hfold : [(⟨i, some name, some url, tr, tb⟩ : Camera)].foldl addCamera [] =
      dictInsert (dictInsert [] (name ++ "-raw") (rawRoute url)) name
        (if tr.getD true then transcodeRoute (name ++ "-raw") (tb.getD 1000)
         else passthroughRoute (name ++ "-raw")) := by
    cases htr : tr.getD true <;> simp [addCamera, hval, htr]
  rw [renderPaths, hfold, lookupKV_dictInsert_ne _ _ _ _ ha,
    lookupKV_dictInsert_self]

/-- C1 counterexample: with a persisted configuration that exists but fails
to parse, one sync attempt does NOT write the newly rendered configuration —
contradicting the claim that a parse failure forces a write. -/
theorem sync_unparsable_cx :
    (sync_once [] .unparsable).wrote = false ∧
    (sync_once [] .unparsable).state = FileState.unparsable :=
  ⟨rfl, rfl⟩

/-- C1 (amended): if the persisted configuration file exists but fails to
parse, the parse error escapes the inner file-read handler (which catches
only file-not-found) and is absorbed by the per-iteration handler: no
exception escapes the sync attempt and the iteration returns failure, but the
newly rendered configuration is NOT written, no reload is triggered, and the
corrupt file is left in place. -/
theorem sync_unparsable_no_write (cameras : List Camera) :
    (sync_once cameras .unparsable).wrote = false ∧
    (sync_once cameras .unparsable).reloaded = false ∧
    (sync_once cameras .unparsable).state = FileState.unparsable ∧
    (sync_once cameras .unparsable).ret = some false :=
  ⟨rfl, rfl, rfl, rfl⟩

/-- C2 counterexample: the camera fetch returns the very same value on a
transport failure (the RPC raised) as on a successful fetch of an empty
camera list, so no error value distinct from the empty-list success exists. -/
theorem fetch_failure_cx :
    get_cameras_from_odoo .raised (.ok []) =
      get_cameras_from_odoo (.ok []) (.ok []) := rfl

/-- C2 (amended): every transport failure of either XML-RPC call is caught
inside `get_cameras_from_odoo` and yields the empty list — the same value as
a successful fetch of zero cameras; no exception propagates to the caller,
and the caller cannot distinguish a transport failure from an empty camera
set. -/
theorem fetch_failure_returns_empty (r : RpcResult (List Camera)) :
    get_cameras_from_odoo .raised r = [] ∧
    get_cameras_from_odoo (.ok []) r = [] ∧
    ∀ ids : List Nat, get_cameras_from_odoo (.ok ids) .raised = [] := by
  refine ⟨rfl, rfl, fun ids => ?_⟩
  cases h : ids.isEmpty <;> simp [get_cameras_from_odoo, h]

/-- C3 counterexample: when every startup authentication attempt fails the
process does not exit with a non-zero status — it exits with status 0. -/
theorem auth_exhaustion_cx :
    ¬ ∃ code, processExitCode (fun _ => none) = some code ∧ code ≠ 0 := by
  rintro ⟨code, hc, hne⟩
  have h0 : processExitCode (fun _ => none) = some 0 := rfl
  rw [h0] at hc
  exact hne (Option.some.inj hc).symm

/-- The retry loop returns `exitNormal` when every attempt in its budget
fails. -/
theorem authLoop_exhausts (auth : Nat → Option Nat) :
    ∀ (fuel attempt : Nat), (∀ k, k < fuel → auth (attempt + k) = none) →
      authLoop auth attempt fuel = .exitNormal := by
  intro fuel
  induction fuel with
  | zero => intro attempt _; rfl
  | succ n ih =>
      intro attempt h
      have h0 : auth attempt = none := by simpa using h 0 (Nat.succ_pos n)
      rw [authLoop, h0]
      exact ih (attempt + 1) fun k hk => by
        have hs := h (k + 1) (Nat.succ_lt_succ hk)
        rw [show attempt + 1 + k = attempt + (k + 1) by omega]
        exact hs

/-- C3 (amended): if all 10 bounded startup authentication retries fail,
`main` returns, the script falls off the end of its entry point, and the
process terminates with exit status 0 (normal termination, not a non-zero
status). -/
theorem auth_exhaustion_exit_zero (auth : Nat → Option Nat)
    (h : ∀ n, n < 10 → auth n = none) : processExitCode auth = some 0 := by
  have hm : mainStartup auth = .exitNormal :=
    authLoop_exhausts auth 10 0 fun k hk => by simpa using h k hk
  simp [processExitCode, hm]

/-- C3 witness: the amended theorem applied to the always-failing
authenticator. -/
theorem auth_exhaustion_exit_zero_witness :
    (∀ n, n < 10 → (fun _ : Nat => (none : Option Nat)) n = none) ∧
    processExitCode (fun _ => none) = some 0 :=
  ⟨fun _ _ => rfl, auth_exhaustion_exit_zero (fun _ => none) fun _ _ => rfl⟩

/-- C4 counterexample: during an in-place write of contents "ab" over
previous contents "p", an observable state exists (the truncated file) that
is neither the previous complete document nor the new complete document. -/
theorem inplace_write_cx :
    ¬ (∀ s ∈ observableDuringWrite "p" "ab", s = "p" ∨ s = "ab") := by
  decide

/-- C4 (amended): `write_config` writes in place (`open(path, 'w')` truncates
before `yaml.dump` streams the text), so every state observable at the target
path during the write is the previous contents or a prefix of the new
contents — including the empty truncated file, which is genuinely observable;
only the final observable state is the complete new document. -/
theorem inplace_write_states (prev next s : String)
    (hs : s ∈ observableDuringWrite prev next) :
    (s = prev ∨ ∃ i, i ≤ next.length ∧ s = String.mk (next.data.take i)) ∧
    (observableDuringWrite prev next).getLast? = some next ∧
    "" ∈ observableDuringWrite prev next := by
  refine ⟨?_, ?_, ?_⟩
  · rcases List.mem_cons.mp hs with h | h
    · exact .inl h
    · rcases List.mem_map.mp h with ⟨i, hi, hmk⟩
      have hlt : i < next.length + 1 := List.mem_range.mp hi
      exact .inr ⟨i, by omega, hmk.symm⟩
  · show (prev :: (List.range (next.length + 1)).map _).getLast? = some next
    rw [List.range_succ, List.map_append]
    simp only [List.map_cons, List.map_nil]
    rw [← List.cons_append, List.getLast?_concat]
    cases next with
    | mk data =>
        show some (String.mk (data.take (String.mk data).length)) = _
        rw [show (String.mk data).length = data.length from rfl,
          List.take_length]
  · exact List.mem_cons_of_mem _ (List.mem_map.mpr
      ⟨0, List.mem_range.mpr (by omega), rfl⟩)

/-- C4 witness: the amended theorem applied to the observable empty file
during a write of "ab" over "p". -/
theorem inplace_write_states_witness :
    ("" ∈ observableDuringWrite "p" "ab") ∧
    (("" = "p" ∨ ∃ i, i ≤ ("ab" : String).length ∧
        "" = String.mk (("ab" : String).data.take i)) ∧
     (observableDuringWrite "p" "ab").getLast? = some "ab" ∧
     "" ∈ observableDuringWrite "p" "ab") :=
  ⟨by decide, inplace_write_states "p" "ab" "" (by decide)⟩

/-- C5: for a camera with transcoding enabled and positive target bitrate b,
the rendered transcode route is emitted with the command whose max-rate is
`transcodeMaxrate b` and buffer `transcodeBufsize b`; these equal the
rational floor of 1.5 times b and exactly 2 times b, and in particular 1500
and 2000 for b = 1000. -/
theorem transcode_bitrate_derivation (i : Option Nat) (name url : String)
    (b : Nat) (hn : name ≠ "") (hu : url ≠ "") (ha : name ≠ "all_others")
    (hb : 0 < b) :
    lookupKV (routesOf (generate_mediamtx_config
        [⟨i, some name, some url, some true, some b⟩])) name
      = some (transcodeRoute (name ++ "-raw") b) ∧
    transcodeMaxrate b = Nat.floor ((1.5 : ℚ) * b) ∧
    transcodeBufsize b = 2 * b ∧
    transcodeMaxrate 1000 = 1500 ∧ transcodeBufsize 1000 = 2000 := by
  refine ⟨?_, transcodeMaxrate_eq_floor b, rfl, rfl, rfl⟩
  rw [routesOf_generate]
  have h := lookup_render_single i name url (some true) (some b) hn hu ha
  simpa using h

/-- C5 witness: the theorem applied to a concrete camera with bitrate
1000. -/
theorem transcode_bitrate_derivation_witness :
    (("lobby" : String) ≠ "" ∧ ("rtsp://cam" : String) ≠ "" ∧
     ("lobby" : String) ≠ "all_others" ∧ 0 < 1000) ∧
    (lookupKV (routesOf (generate_mediamtx_config
        [⟨none, some "lobby", some "rtsp://cam", some true, some 1000⟩])) "lobby"
      = some (transcodeRoute ("lobby" ++ "-raw") 1000) ∧
     transcodeMaxrate 1000 = Nat.floor ((1.5 : ℚ) * (1000 : Nat)) ∧
     transcodeBufsize 1000 = 2 * 1000 ∧
     transcodeMaxrate 1000 = 1500 ∧ transcodeBufsize 1000 = 2000) :=
  ⟨⟨by decide, by decide, by decide, by decide⟩,
   transcode_bitrate_derivation none "lobby" "rtsp://cam" 1000
     (by decide) (by decide) (by decide) (by decide)⟩

/-- C6: a sync attempt that wrote leaves exactly the rendered configuration
persisted, and a second sync attempt over the same camera list (reading back
the document it serialized, per the YAML round-trip contract embedded in
`FileState`) computes equal fingerprints, detects no change, invokes neither
the writer nor the reload trigger, and leaves the state untouched. -/
theorem second_sync_noop (cameras : List Camera) (st : FileState)
    (h : (sync_once cameras st).wrote = true) :
    (sync_once cameras st).state = .parsed (generate_mediamtx_config cameras) ∧
    (sync_once cameras (sync_once cameras st).state).wrote = false ∧
    (sync_once cameras (sync_once cameras st).state).reloaded = false ∧
    (sync_once cameras (sync_once cameras st).state).state
      = (sync_once cameras st).state := by
  have hst := sync_once_wrote_state h
  refine ⟨hst, ?_, ?_, ?_⟩
  · rw [hst, sync_once_noop]
  · rw [hst, sync_once_noop]
  · rw [hst, sync_once_noop]

/-- C6 witness: first sync from a missing config writes; the second sync with
the same (empty) camera list is a no-op. -/
theorem second_sync_noop_witness :
    (sync_once [] FileState.missing).wrote = true ∧
    ((sync_once [] FileState.missing).state
        = .parsed (generate_mediamtx_config []) ∧
     (sync_once [] (sync_once [] FileState.missing).state).wrote = false ∧
     (sync_once [] (sync_once [] FileState.missing).state).reloaded = false ∧
     (sync_once [] (sync_once [] FileState.missing).state).state
        = (sync_once [] FileState.missing).state) :=
  ⟨rfl, second_sync_noop [] .missing rfl⟩

/-- C7: semantically equal configuration documents (same key-value mappings
at every level, irrespective of map key insertion order) receive identical
fingerprints, because `calculate_config_hash` serializes in canonical
sorted-key form. -/
theorem fingerprint_key_order_invariant {a b : YVal} (h : YEquiv a b) :
    calculate_config_hash a = calculate_config_hash b :=
  canonDump_eq_of_yequiv h

/-- C7 witness: two maps with the same entries inserted in opposite orders
fingerprint identically. -/
theorem fingerprint_key_order_invariant_witness :
    YEquiv (.map [("b", .nat 1), ("a", .nat 2)])
      (.map [("a", .nat 2), ("b", .nat 1)]) ∧
    calculate_config_hash (.map [("b", .nat 1), ("a", .nat 2)]) =
      calculate_config_hash (.map [("a", .nat 2), ("b", .nat 1)]) := by
  have hd : YEquiv (.map [("b", YVal.nat 1), ("a", YVal.nat 2)])
      (.map [("a", YVal.nat 2), ("b", YVal.nat 1)]) := by
    refine @YEquiv.map [("b", YVal.nat 1), ("a", YVal.nat 2)]
      [("b", YVal.nat 1), ("a", YVal.nat 2)]
      [("a", YVal.nat 2), ("b", YVal.nat 1)]
      rfl (fun i h h' => rfl) ?_
      (List.Perm.swap ("a", YVal.nat 2) ("b", YVal.nat 1) []) (by decide)
    intro i h h'
    rcases i with _ | _ | i
    · exact YEquiv.nat 1
    · exact YEquiv.nat 2
    · exfalso
      simp only [List.length_cons, List.length_nil] at h
      omega
  exact ⟨hd, fingerprint_key_order_invariant hd⟩

/-- C8: records with a missing or empty routing key or source URL are
excluded from rendering — the rendered configuration equals the one rendered
from the list with such records filtered out (so rendering never fails on
them), and every emitted route name is the fixed catch-all or derives from a
valid record's routing key. -/
theorem invalid_records_excluded (cameras : List Camera) (n : String)
    (hn : n ∈ (routesOf (generate_mediamtx_config cameras)).map Prod.fst) :
    generate_mediamtx_config cameras =
      generate_mediamtx_config (cameras.filter validCamera) ∧
    (n = "all_others" ∨ ∃ c, c ∈ cameras ∧ validCamera c = true ∧
        (n = keyOf c ∨ n = keyOf c ++ "-raw")) := by
  constructor
  · unfold generate_mediamtx_config renderPaths
    rw [foldl_addCamera_filter]
  · rw [routesOf_generate, renderPaths] at hn
    rcases mem_keys_dictInsert hn with h | h
    · exact .inl h
    · rcases names_foldl cameras [] n h with h1 | h1
      · simp at h1
      · exact .inr h1

/-- C8 witness: a record with a routing key but no source URL renders to a
configuration with the catch-all as its only route. -/
theorem invalid_records_excluded_witness :
    ("all_others" ∈ (routesOf (generate_mediamtx_config
        [⟨some 1, some "cam", none, none, none⟩])).map Prod.fst) ∧
    (generate_mediamtx_config [⟨some 1, some "cam", none, none, none⟩] =
       generate_mediamtx_config
         ([(⟨some 1, some "cam", none, none, none⟩ : Camera)].filter validCamera) ∧
     ("all_others" = "all_others" ∨
       ∃ c, c ∈ [(⟨some 1, some "cam", none, none, none⟩ : Camera)] ∧
         validCamera c = true ∧
         ("all_others" = keyOf c ∨ "all_others" = keyOf c ++ "-raw"))) :=
  ⟨by decide, invalid_records_excluded _ _ (by decide)⟩

/-- C9: for every camera list the rendered configuration carries the fixed
catch-all route `all_others` with on-demand disabled and the full fixed base
settings block; with zero cameras the catch-all is the only route, and the
resulting document is written successfully. -/
theorem zero_camera_render (cameras : List Camera) (st : FileState) :
    lookupKV (routesOf (generate_mediamtx_config cameras)) "all_others"
      = some catchAllRoute ∧
    topKVs (generate_mediamtx_config cameras) =
      baseConfig ++ [("paths", .map (renderPaths cameras))] ∧
    generate_mediamtx_config [] =
      .map (baseConfig ++ [("paths", .map [("all_others", catchAllRoute)])]) ∧
    write_config (generate_mediamtx_config []) st =
      (.parsed (generate_mediamtx_config []), true) := by
  refine ⟨?_, rfl, rfl, rfl⟩
  rw [routesOf_generate, renderPaths]
  exact lookupKV_dictInsert_self _ _ _

/-- C10: a valid camera record whose transcoding flag is absent is rendered
with transcoding treated as enabled — the route under its routing key is the
transcode route (with the external transcode command), not the passthrough
route. -/
theorem absent_transcoding_defaults_on (i : Option Nat) (name url : String)
    (tb : Option Nat) (hn : name ≠ "") (hu : url ≠ "")
    (ha : name ≠ "all_others") :
    lookupKV (routesOf (generate_mediamtx_config
        [⟨i, some name, some url, none, tb⟩])) name
      = some (transcodeRoute (name ++ "-raw") (tb.getD 1000)) ∧
    transcodeRoute (name ++ "-raw") (tb.getD 1000)
      ≠ passthroughRoute (name ++ "-raw") := by
  constructor
  · rw [routesOf_generate]
    have h := lookup_render_single i name url none tb hn hu ha
    simpa using h
  · intro hcontra
    simp [transcodeRoute, passthroughRoute] at hcontra

/-- C10 witness: the theorem applied to a concrete record with no
transcoding flag. -/
theorem absent_transcoding_defaults_on_witness :
    (("door" : String) ≠ "" ∧ ("rtsp://d" : String) ≠ "" ∧
     ("door" : String) ≠ "all_others") ∧
    (lookupKV (routesOf (generate_mediamtx_config
        [⟨none, some "door", some "rtsp://d", none, none⟩])) "door"
      = some (transcodeRoute ("door" ++ "-raw") ((none : Option Nat).getD 1000)) ∧
     transcodeRoute ("door" ++ "-raw") ((none : Option Nat).getD 1000)
      ≠ passthroughRoute ("door" ++ "-raw")) :=
  ⟨⟨by decide, by decide, by decide⟩,
   absent_transcoding_defaults_on none "door" "rtsp://d" none
     (by decide) (by decide) (by decide)⟩
